import Mathlib

/-!
Shallow embedding of `src/script.js` (portfolio page client script).

Strings coming from the browser are modelled as `List Char`; the `.length`
of a JavaScript string agrees with the list length on the BMP characters
used here.  Regular expressions are translated into executable character
predicates and matchers.  DOM side effects are modelled as explicit state
records, and timer-driven behaviour as explicit state-passing functions.
-/

namespace Portfolio

/-- Character class `\s` of JavaScript regular expressions (ECMAScript
WhiteSpace ∪ LineTerminator), used by the name regex and by `trim`. -/
def jsWhitespace (c : Char) : Bool :=
  c == '\t' || c == '\n' || c.toNat == 0x0B || c.toNat == 0x0C || c == '\r' ||
  c == ' ' || c.toNat == 0xA0 || c.toNat == 0x1680 ||
  (0x2000 ≤ c.toNat && c.toNat ≤ 0x200A) ||
  c.toNat == 0x2028 || c.toNat == 0x2029 || c.toNat == 0x202F ||
  c.toNat == 0x205F || c.toNat == 0x3000 || c.toNat == 0xFEFF

/-- JavaScript `String.prototype.trim`: strip leading and trailing
whitespace (script.js:289-291 applies it to each submitted field). -/
def jsTrim (s : List Char) : List Char :=
  ((s.dropWhile jsWhitespace).reverse.dropWhile jsWhitespace).reverse

/-- Character class `[a-zA-ZáéíóúÁÉÍÓÚñÑ\s]` of the name regex at
script.js:316. -/
def isNameChar (c : Char) : Bool :=
  ('a' ≤ c && c ≤ 'z') || ('A' ≤ c && c ≤ 'Z') ||
  c == 'á' || c == 'é' || c == 'í' || c == 'ó' || c == 'ú' ||
  c == 'Á' || c == 'É' || c == 'Í' || c == 'Ó' || c == 'Ú' ||
  c == 'ñ' || c == 'Ñ' || jsWhitespace c

/-- Character class `[^\s@]` of the email regex at script.js:321. -/
def isEmailChar (c : Char) : Bool :=
  !jsWhitespace c && !(c == '@')

/-- Matcher for the email regex `/^[^\s@]+@[^\s@]+\.[^\s@]+$/`
(script.js:321).  A string matches exactly when it splits as
`l ++ '@' :: m ++ '.' :: r` with `l`, `m`, `r` nonempty and free of
whitespace and `'@'`.  Since the three classes all exclude `'@'`, the
`'@'` of a match is the first `'@'` of the string, everything after it
must be in `[^\s@]`, and the `'.'` may sit at any interior position of
that tail (the classes allow further dots inside `m` and `r`). -/
def emailTest (s : List Char) : Bool :=
  match s.dropWhile (fun c => !(c == '@')) with
  | [] => false
  | _ :: t =>
      !(s.takeWhile (fun c => !(c == '@'))).isEmpty &&
      (s.takeWhile (fun c => !(c == '@'))).all isEmailChar &&
      t.all isEmailChar &&
      ((t.drop 1).dropLast.contains '.')

/-- Error message for a missing or too-short name (script.js:315). -/
def nameLenMsg : String := "El nombre debe tener al menos 2 caracteres"

/-- Error message for a name with characters outside the allowed class
(script.js:317). -/
def nameCharMsg : String := "El nombre solo puede contener letras y espacios"

/-- Error message for an invalid email (script.js:323). -/
def emailMsg : String := "Por favor ingresa un email válido"

/-- Error message for a missing or too-short message (script.js:328). -/
def messageLenMsg : String := "El mensaje debe tener al menos 10 caracteres"

/-- Contact form data as captured by `handleFormSubmit`
(script.js:288-292). -/
structure ContactData where
  nombre : List Char
  email : List Char
  mensaje : List Char
deriving DecidableEq

/-- Name block of `validateForm` (script.js:314-318): empty/short names
get the length message, otherwise names failing the letters-and-spaces
regex get the character message. -/
def nameErrors (nombre : List Char) : List String :=
  if nombre = [] ∨ nombre.length < 2 then [nameLenMsg]
  else if ¬ nombre.all isNameChar then [nameCharMsg]
  else []

/-- Email block of `validateForm` (script.js:320-324). -/
def emailErrors (email : List Char) : List String :=
  if email = [] ∨ emailTest email = false then [emailMsg]
  else []

/-- Message block of `validateForm` (script.js:326-329). -/
def messageErrors (mensaje : List Char) : List String :=
  if mensaje = [] ∨ mensaje.length < 10 then [messageLenMsg]
  else []

/-- `validateForm` (script.js:310-332): pushes the three blocks' messages
into one array, name first, then email, then message. -/
def validateForm (d : ContactData) : List String :=
  nameErrors d.nombre ++ emailErrors d.email ++ messageErrors d.mensaje

/-- Character class the spec's words describe for the name rule: Latin
letters (including the accented vowels and ñ) and spaces.  This is the
claim-side reading, to be compared with the source class `isNameChar`,
which also admits the other `\s` whitespace characters. -/
def specNameChar (c : Char) : Bool :=
  ('a' ≤ c && c ≤ 'z') || ('A' ≤ c && c ≤ 'Z') ||
  c == 'á' || c == 'é' || c == 'í' || c == 'ó' || c == 'ú' ||
  c == 'Á' || c == 'É' || c == 'Í' || c == 'Ó' || c == 'Ú' ||
  c == 'ñ' || c == 'Ñ' || c == ' '

/-- Form-related page state touched by `handleFormSubmit`,
`showFormErrors`, `simulateFormSubmission` and `showSuccessMessage`
(script.js:283-501).  `formErrors` is the message list of the
`.form-error` block prepended to the form, `pending` the contact data
held by the 1500 ms `setTimeout` of `simulateFormSubmission` (none when
no send is scheduled). -/
structure FormState where
  nombre : List Char
  email : List Char
  mensaje : List Char
  formErrors : List String
  successBanner : Bool
  submitDisabled : Bool
  pending : Option ContactData
deriving DecidableEq

/-- Trimmed data captured from the form fields (script.js:288-292). -/
def submittedData (s : FormState) : ContactData :=
  ⟨jsTrim s.nombre, jsTrim s.email, jsTrim s.mensaje⟩

/-- `handleFormSubmit` (script.js:283-304): validate the trimmed data; on
any error, show the error block and return; otherwise disable the submit
control and schedule the simulated send (script.js:447-454). -/
def handleFormSubmit (s : FormState) : FormState :=
  let data := submittedData s
  let errors := validateForm data
  if 0 < errors.length then { s with formErrors := errors }
  else { s with submitDisabled := true, pending := some data }

/-- Firing of the 1500 ms timer of `simulateFormSubmission`
(script.js:455-473): show the success banner, reset the fields, restore
the submit control and clear stale error nodes.  A no-op when no send is
scheduled. -/
def completePending (s : FormState) : FormState :=
  match s.pending with
  | none => s
  | some _ =>
      { s with successBanner := true, nombre := [], email := [], mensaje := [],
               formErrors := [], submitDisabled := false, pending := none }

/-- One case-study record of the fixed table in `loadCaseStudyContent`
(script.js:578-723). -/
structure CaseStudy where
  title : String
  client : String
  duration : String
  role : String
  objective : String
  problem : String
  process : List String
  solution : String
  results : List String
  image : String
deriving DecidableEq

/-- The fixed six-entry `caseStudies` table of `loadCaseStudyContent`
(script.js:578-723), keyed by project id. -/
def caseStudies : List (String × CaseStudy) :=
  [("fintech-rebrand",
    { title := "Rebranding para Startup de Fintech",
      client := "TechFinance Startup",
      duration := "3 meses",
      role := "Lead Designer & Brand Strategist",
      objective := "Reposicionar la marca para aumentar la confianza del usuario y triplicar las conversiones",
      problem := "La startup tenía una identidad visual inconsistente que no transmitía confianza en el sector financiero, resultando en bajas tasas de conversión y poca diferenciación en el mercado.",
      process := ["Análisis de mercado y competencia",
                  "Research de usuarios y pain points",
                  "Desarrollo de estrategia de marca",
                  "Creación de identidad visual completa",
                  "Diseño de sistema de diseño",
                  "Implementación en todos los touchpoints"],
      solution := "Desarrollé una identidad visual moderna y confiable que comunica estabilidad financiera a través de colores corporativos, tipografía profesional y elementos gráficos que transmiten transparencia y seguridad.",
      results := ["300% incremento en conversiones",
                  "85% mejora en reconocimiento de marca",
                  "40% reducción en costo de adquisición",
                  "95% satisfacción del cliente"],
      image := "https://picsum.photos/600/400?random=1" }),
   ("ecommerce-app",
    { title := "App Móvil E-commerce",
      client := "RetailPlus",
      duration := "4 meses",
      role := "UX/UI Designer",
      objective := "Rediseñar la experiencia de compra móvil para reducir el abandono del carrito y aumentar las ventas",
      problem := "La app móvil tenía una tasa de abandono del carrito del 70% debido a una experiencia de usuario confusa y procesos de compra complejos.",
      process := ["Audit de UX existente",
                  "User research y entrevistas",
                  "Mapeo de customer journey",
                  "Wireframing y prototipado",
                  "Testing de usabilidad",
                  "Diseño de interfaz final"],
      solution := "Creé una experiencia de compra simplificada con checkout en un solo paso, navegación intuitiva y elementos visuales que guían al usuario hacia la conversión.",
      results := ["35% reducción en abandono del carrito",
                  "50% incremento en ventas móviles",
                  "4.8/5 rating en app stores",
                  "60% mejora en tiempo de checkout"],
      image := "https://picsum.photos/600/400?random=2" }),
   ("corporate-campaign",
    { title := "Campaña Corporativa Multichannel",
      client := "GlobalCorp",
      duration := "2 meses",
      role := "Creative Director",
      objective := "Unificar la comunicación de marca en todos los touchpoints para mejorar el reconocimiento y la coherencia",
      problem := "La empresa tenía múltiples canales de comunicación con mensajes inconsistentes y diseño fragmentado, afectando la percepción de marca.",
      process := ["Audit de marca existente",
                  "Desarrollo de guidelines",
                  "Creación de assets multichannel",
                  "Diseño de templates",
                  "Capacitación de equipos",
                  "Implementación coordinada"],
      solution := "Desarrollé un sistema de comunicación unificado con guidelines claras, templates reutilizables y una identidad visual consistente en todos los canales.",
      results := ["90% consistencia en comunicación",
                  "45% mejora en reconocimiento de marca",
                  "30% reducción en tiempo de producción",
                  "100% adopción por parte de equipos"],
      image := "https://picsum.photos/600/400?random=3" }),
   ("saas-dashboard",
    { title := "Dashboard SaaS B2B",
      client := "DataAnalytics Pro",
      duration := "5 meses",
      role := "Product Designer",
      objective := "Rediseñar la interfaz compleja para mejorar la usabilidad y reducir el tiempo de onboarding",
      problem := "El dashboard tenía una curva de aprendizaje muy alta, con usuarios abandonando la plataforma en las primeras semanas debido a la complejidad de la interfaz.",
      process := ["Análisis de datos de uso",
                  "User interviews y surveys",
                  "Information architecture",
                  "Wireframing y prototipado",
                  "Usability testing iterativo",
                  "Diseño de sistema de componentes"],
      solution := "Simplifiqué la interfaz agrupando funcionalidades relacionadas, creé un sistema de navegación intuitivo y desarrollé un onboarding progresivo.",
      results := ["50% reducción en tiempo de onboarding",
                  "70% mejora en task completion rate",
                  "4.5/5 satisfacción del usuario",
                  "40% reducción en tickets de soporte"],
      image := "https://picsum.photos/600/400?random=4" }),
   ("sustainable-packaging",
    { title := "Packaging Sostenible",
      client := "EcoProducts",
      duration := "2 meses",
      role := "Packaging Designer",
      objective := "Crear packaging que comunique valores sostenibles y aumente las ventas en el segmento eco-conscious",
      problem := "El packaging actual no comunicaba los valores sostenibles de la marca, perdiendo oportunidades en el mercado eco-friendly en crecimiento.",
      process := ["Research de mercado eco-friendly",
                  "Análisis de materiales sostenibles",
                  "Desarrollo de conceptos visuales",
                  "Prototipado y testing",
                  "Optimización para producción",
                  "Implementación en línea de productos"],
      solution := "Diseñé un sistema de packaging que combina materiales sostenibles con una identidad visual que comunica claramente los valores ecológicos de la marca.",
      results := ["60% incremento en ventas eco-segment",
                  "85% mejora en percepción sostenible",
                  "30% reducción en costos de packaging",
                  "Premio de diseño sostenible 2024"],
      image := "https://picsum.photos/600/400?random=5" }),
   ("brand-identity",
    { title := "Identidad de Marca Completa",
      client := "InnovateTech",
      duration := "3 meses",
      role := "Brand Designer",
      objective := "Desarrollar identidad visual desde cero para posicionar la empresa como líder en su sector",
      problem := "La startup necesitaba una identidad visual profesional que comunicara innovación y confiabilidad para competir en el mercado tecnológico.",
      process := ["Brand strategy y positioning",
                  "Desarrollo de conceptos creativos",
                  "Diseño de logo y variaciones",
                  "Creación de manual de marca",
                  "Diseño de aplicaciones",
                  "Implementación en todos los touchpoints"],
      solution := "Creé una identidad visual moderna y escalable que comunica innovación tecnológica a través de elementos gráficos dinámicos y una paleta de colores distintiva.",
      results := ["100% reconocimiento de marca en 6 meses",
                  "200% incremento en leads calificados",
                  "Premio a mejor identidad corporativa",
                  "Expansión a 3 mercados internacionales"],
      image := "https://picsum.photos/600/400?random=6" })]

/-- Markup built by the template literal of `loadCaseStudyContent`
(script.js:729-778), with the interpolations in source order. -/
def renderCaseStudy (p : CaseStudy) : String :=
  "<div class=\"case-study-header\">" ++
    "<img src=\"" ++ p.image ++ "\" alt=\"" ++ p.title ++
      "\" class=\"case-study-image\">" ++
    "<div class=\"case-study-meta\"><h1>" ++ p.title ++ "</h1>" ++
      "<div class=\"case-study-info\">" ++
        "<div class=\"info-item\"><strong>Cliente:</strong> " ++ p.client ++ "</div>" ++
        "<div class=\"info-item\"><strong>Duración:</strong> " ++ p.duration ++ "</div>" ++
        "<div class=\"info-item\"><strong>Rol:</strong> " ++ p.role ++ "</div>" ++
      "</div></div></div>" ++
  "<div class=\"case-study-body\">" ++
    "<section class=\"case-study-section\"><h2>Objetivo</h2><p>" ++
      p.objective ++ "</p></section>" ++
    "<section class=\"case-study-section\"><h2>El Problema</h2><p>" ++
      p.problem ++ "</p></section>" ++
    "<section class=\"case-study-section\"><h2>Proceso</h2><ul class=\"process-list\">" ++
      String.join (p.process.map (fun step => "<li>" ++ step ++ "</li>")) ++
      "</ul></section>" ++
    "<section class=\"case-study-section\"><h2>La Solución</h2><p>" ++
      p.solution ++ "</p></section>" ++
    "<section class=\"case-study-section\"><h2>Resultados</h2><div class=\"results-grid\">" ++
      String.join (p.results.map (fun result => "<div class=\"result-item\">" ++ result ++ "</div>")) ++
      "</div></section></div>"

/-- Modal-related page state touched by `openCaseStudy`, `closeModal` and
`loadCaseStudyContent` (script.js:542-781): the two state fields of the
global `state` object, the modal's `active` class, the body scroll lock,
and the innerHTML of the `case-study-content` container. -/
structure ModalState where
  isModalOpen : Bool
  currentProject : Option String
  modalActive : Bool
  bodyOverflowHidden : Bool
  modalContent : String
deriving DecidableEq

/-- Page state before any modal interaction: `state.isModalOpen = false`,
`state.currentProject = null` (script.js:33-38), no `active` class, no
scroll lock, empty modal container. -/
def initialModalState : ModalState :=
  ⟨false, none, false, false, ""⟩

/-- `loadCaseStudyContent` (script.js:577-781): look the project id up in
the fixed table; if absent, return leaving the container unchanged;
otherwise replace its innerHTML with the rendered case study. -/
def loadCaseStudyContent (projectId : String) (content : String) : String :=
  match caseStudies.lookup projectId with
  | none => content
  | some p => renderCaseStudy p

/-- `openCaseStudy` (script.js:542-555): set `isModalOpen` and
`currentProject`, add the `active` class, lock body scroll, then load the
content. -/
def openCaseStudy (projectId : String) (s : ModalState) : ModalState :=
  { isModalOpen := true,
    currentProject := some projectId,
    modalActive := true,
    bodyOverflowHidden := true,
    modalContent := loadCaseStudyContent projectId s.modalContent }

/-- `closeModal` (script.js:561-571): clear both state fields, remove the
`active` class, unlock scroll, empty the container. -/
def closeModal (_s : ModalState) : ModalState :=
  { isModalOpen := false,
    currentProject := none,
    modalActive := false,
    bodyOverflowHidden := false,
    modalContent := "" }

/-- One `section[id]` element as read by `updateActiveNavigation`
(script.js:159-169): its id, `offsetTop` and `clientHeight`. -/
structure PageSection where
  id : String
  offsetTop : Int
  clientHeight : Int
deriving DecidableEq

/-- Matching test of `updateActiveNavigation` (script.js:163-166):
`scrollY >= sectionTop - 100 && scrollY < sectionTop - 100 + height`. -/
def sectionMatches (scrollY : Int) (sec : PageSection) : Bool :=
  sec.offsetTop - 100 ≤ scrollY && scrollY < sec.offsetTop - 100 + sec.clientHeight

/-- The `current` accumulator of `updateActiveNavigation`
(script.js:160-169): starts as the empty string, each matching section in
document order overwrites it with its id. -/
def computeCurrent (scrollY : Int) (sections : List PageSection) : String :=
  sections.foldl (fun cur sec => if sectionMatches scrollY sec then sec.id else cur) ""

/-- Link update of `updateActiveNavigation` (script.js:172-177): every
nav link loses `active`, then gains it exactly when its `data-section`
attribute (none when absent) equals `current`.  Returns the `active` flag
per link. -/
def updateActiveNavigation (scrollY : Int) (sections : List PageSection)
    (links : List (Option String)) : List Bool :=
  links.map (fun attr => attr == some (computeCurrent scrollY sections))

/-- `throttle` (script.js:911-922) run over a timeline: the state is the
expiry instant of the current suppression window (none before the first
call).  A call at instant `t` runs the wrapped function and opens a
window until `t + limit` when no window is in force; a call inside a
window is dropped and the window is unchanged.  Timers scheduled for an
instant `e` fire before events processed at any instant `≥ e`.  Returns
the instants at which the wrapped function was invoked. -/
def throttleRun (limit : Nat) : List Nat → Option Nat → List Nat
  | [], _ => []
  | t :: ts, none => t :: throttleRun limit ts (some (t + limit))
  | t :: ts, some e =>
      if e ≤ t then t :: throttleRun limit ts (some (t + limit))
      else throttleRun limit ts (some e)

/-- `easeInOutQuad` (script.js:249-254) over exact rationals, with the
source's mutation of `t` substituted through. -/
def easeInOutQuad (t b c d : ℚ) : ℚ :=
  if t / (d / 2) < 1 then c / 2 * (t / (d / 2)) * (t / (d / 2)) + b
  else -(c / 2) * ((t / (d / 2) - 1) * ((t / (d / 2) - 1) - 2) - 1) + b
/-- Head of a nonempty `dropWhile` result fails the predicate. -/
theorem dropWhile_head_false (p : Char → Bool) :
    ∀ (l : List Char) (x : Char) (t : List Char), l.dropWhile p = x :: t → p x = false := by
  intro l
  induction l with
  | nil => intro x t h; simp [List.dropWhile] at h
  | cons a l ih =>
      intro x t h
      by_cases hp : p a
      · rw [List.dropWhile_cons, if_pos hp] at h
        exact ih x t h
      · rw [List.dropWhile_cons, if_neg hp] at h
        cases h
        simpa using hp

/-- A string accepted by the email regex splits at an `'@'` with a
`'.'` somewhere after it. -/
theorem emailTest_split (s : List Char) (h : emailTest s = true) :
    ∃ a b : List Char, s = a ++ '@' :: b ∧ '.' ∈ b := by
  unfold emailTest at h
  cases hd : s.dropWhile (fun c => !(c == '@')) with
  | nil => rw [hd] at h; simp at h
  | cons x t =>
      rw [hd] at h
      have hx : (fun c : Char => !(c == '@')) x = false :=
        dropWhile_head_false _ s x t hd
      have hx' : x = '@' := by simpa using hx
      subst hx'
      refine ⟨s.takeWhile (fun c => !(c == '@')), t, ?_, ?_⟩
      · conv_lhs => rw [← List.takeWhile_append_dropWhile (fun c => !(c == '@')) s]
        rw [hd]
      · simp only [Bool.and_eq_true] at h
        have hc : '.' ∈ (t.drop 1).dropLast := by
          simpa [List.contains] using h.2
        exact ((t.drop 1).dropLast_sublist.trans (List.drop_sublist 1 t)).subset hc

/-- C3: every email input without an `'@'`, or without a `'.'` after the
`'@'`, fails the email rule of `validateForm`; `"a@b.co"` passes it, and
`"a@b"` and `"a"` fail it. -/
theorem emailRule_requires_at_and_dot :
    (∀ e : List Char,
        ('@' ∉ e ∨ ∀ a b : List Char, e = a ++ '@' :: b → '.' ∉ b) →
        emailErrors e = [emailMsg]) ∧
    emailErrors "a@b.co".data = [] ∧
    emailErrors "a@b".data = [emailMsg] ∧
    emailErrors "a".data = [emailMsg] := by
  refine ⟨?_, by decide, by decide, by decide⟩
  intro e h
  have hf : emailTest e = false := by
    cases hb : emailTest e
    · rfl
    · obtain ⟨a, b, rfl, hdot⟩ := emailTest_split e hb
      rcases h with h | h
      · exact absurd (by simp : ('@' : Char) ∈ a ++ '@' :: b) h
      · exact absurd hdot (h a b rfl)
  unfold emailErrors
  rw [if_pos (Or.inr hf)]

/-- Witness for C3 at the input `"a"`, which has no `'@'`. -/
theorem emailRule_requires_at_and_dot_witness :
    ('@' ∉ "a".data ∨ ∀ a b : List Char, "a".data = a ++ '@' :: b → '.' ∉ b) ∧
    emailErrors "a".data = [emailMsg] :=
  ⟨Or.inl (by decide), emailRule_requires_at_and_dot.1 "a".data (Or.inl (by decide))⟩

/-- C2, counterexample: the input `"a<TAB>b"` has length ≥ 2 and contains
a character that is neither a Latin letter nor a space, so the claim says
the name rule fails on it; yet the source regex class contains all of
`\s`, so the rule passes (no error message). -/
theorem nameRule_tab_counterexample :
    2 ≤ (['a', '\t', 'b'] : List Char).length ∧
    (['a', '\t', 'b'] : List Char).all specNameChar = false ∧
    nameErrors ['a', '\t', 'b'] = [] := by decide

/-- C2, amended: the name rule passes exactly the inputs of length ≥ 2
consisting only of characters of the regex class (Latin letters, the
listed accented letters, and any `\s` whitespace character, not just the
space); shorter inputs fail with the length message, and inputs of
length ≥ 2 with a character outside the class fail with the character
message. -/
theorem nameRule_characterization (n : List Char) :
    (n.length < 2 → nameErrors n = [nameLenMsg]) ∧
    (2 ≤ n.length → n.all isNameChar = true → nameErrors n = []) ∧
    (2 ≤ n.length → n.all isNameChar = false → nameErrors n = [nameCharMsg]) := by
  refine ⟨?_, ?_, ?_⟩
  · intro h
    unfold nameErrors
    rw [if_pos (Or.inr h)]
  · intro h2 hall
    have hne : ¬(n = [] ∨ n.length < 2) := by
      rintro (rfl | hlt)
      · simp at h2
      · omega
    unfold nameErrors
    rw [if_neg hne, if_neg (by simp [hall])]
  · intro h2 hall
    have hne : ¬(n = [] ∨ n.length < 2) := by
      rintro (rfl | hlt)
      · simp at h2
      · omega
    unfold nameErrors
    rw [if_neg hne, if_pos (by simp [hall])]

/-- Witness for the amended C2 at the input `"John"`. -/
theorem nameRule_characterization_witness :
    (2 ≤ (['J', 'o', 'h', 'n'] : List Char).length ∧
      (['J', 'o', 'h', 'n'] : List Char).all isNameChar = true) ∧
    nameErrors ['J', 'o', 'h', 'n'] = [] :=
  ⟨by decide, (nameRule_characterization ['J', 'o', 'h', 'n']).2.1 (by decide) (by decide)⟩

/-- C4: every message input of length < 10 fails the message rule of
`validateForm`, and an input of length exactly 10 passes it. -/
theorem messageRule_length_boundary (m : List Char) :
    (m.length < 10 → messageErrors m = [messageLenMsg]) ∧
    (m.length = 10 → messageErrors m = []) := by
  constructor
  · intro h
    unfold messageErrors
    rw [if_pos (Or.inr h)]
  · intro h
    have hne : ¬(m = [] ∨ m.length < 10) := by
      rintro (rfl | hlt)
      · simp at h
      · omega
    unfold messageErrors
    rw [if_neg hne]

/-- Witness for C4 at a ten-character message. -/
theorem messageRule_length_boundary_witness :
    "abcdefghij".data.length = 10 ∧ messageErrors "abcdefghij".data = [] :=
  ⟨by decide, (messageRule_length_boundary "abcdefghij".data).2 (by decide)⟩

/-- C9: on every input, `validateForm` returns a sublist of the fixed
message order (name length, name characters, email, message), hence at
most one message per field in that order; the two name messages never
occur together, and at most three messages are returned in total. -/
theorem validateForm_shape (d : ContactData) :
    (validateForm d).Sublist [nameLenMsg, nameCharMsg, emailMsg, messageLenMsg] ∧
    (validateForm d).length ≤ 3 ∧
    ¬(nameLenMsg ∈ validateForm d ∧ nameCharMsg ∈ validateForm d) := by
  unfold validateForm nameErrors emailErrors messageErrors
  split_ifs <;> refine ⟨?_, ?_, ?_⟩ <;> decide

/-- Completing the submission timer changes nothing when no send is
scheduled. -/
theorem completePending_none (s : FormState) (hp : s.pending = none) :
    completePending s = s := by
  unfold completePending
  rw [hp]

/-- C5: when validation of the submitted data yields any error,
`handleFormSubmit` only replaces the displayed error block with the
validation messages — the fields, the success banner and the scheduled
send are untouched, so no send and no success banner can result from the
attempt — and on the data `{nombre := "A1", email := "bad",
mensaje := "short"}` exactly three error messages are displayed. -/
theorem handleFormSubmit_invalid_aborts (s : FormState)
    (h : validateForm (submittedData s) ≠ []) :
    handleFormSubmit s = { s with formErrors := validateForm (submittedData s) } ∧
    (s.pending = none → completePending (handleFormSubmit s) = handleFormSubmit s) ∧
    (submittedData s = ⟨"A1".data, "bad".data, "short".data⟩ →
        (handleFormSubmit s).formErrors.length = 3) := by
  have hl : 0 < (validateForm (submittedData s)).length := List.length_pos.mpr h
  have h1 : handleFormSubmit s = { s with formErrors := validateForm (submittedData s) } := by
    unfold handleFormSubmit
    simp only []
    rw [if_pos hl]
  refine ⟨h1, ?_, ?_⟩
  · intro hp
    rw [h1]
    exact completePending_none _ hp
  · intro hd
    rw [h1]
    show (validateForm (submittedData s)).length = 3
    rw [hd]
    decide

/-- Witness for C5 at the claim's concrete submission attempt. -/
theorem handleFormSubmit_invalid_aborts_witness :
    validateForm (submittedData ⟨"A1".data, "bad".data, "short".data, [], false, false, none⟩) ≠ [] ∧
    (handleFormSubmit ⟨"A1".data, "bad".data, "short".data, [], false, false, none⟩).formErrors.length = 3 :=
  ⟨by decide,
    (handleFormSubmit_invalid_aborts ⟨"A1".data, "bad".data, "short".data, [], false, false, none⟩
      (by decide)).2.2 (by decide)⟩

/-- C6: opening any project and then closing leaves `currentProject`
empty, the content exactly empty and the modal closed; and `closeModal`
is idempotent, a close on an already-closed modal leaving the state
closed with empty `currentProject` and empty content. -/
theorem modal_open_close_clears (projectId : String) (s : ModalState) :
    (closeModal (openCaseStudy projectId s)).currentProject = none ∧
    (closeModal (openCaseStudy projectId s)).modalContent = "" ∧
    (closeModal (openCaseStudy projectId s)).isModalOpen = false ∧
    closeModal (closeModal s) = closeModal s ∧
    (closeModal s).isModalOpen = false ∧
    (closeModal s).currentProject = none ∧
    (closeModal s).modalContent = "" :=
  ⟨rfl, rfl, rfl, rfl, rfl, rfl, rfl⟩

/-- C1, counterexample: `"unknown-project"` is not a key of the table,
yet `openCaseStudy` on it is not a no-op — it sets `isModalOpen`, sets
`currentProject` and locks page scroll (only the rendered content is
left unchanged), because the state updates at script.js:543-548 run
before the lookup guard at script.js:725-726. -/
theorem openCaseStudy_unknown_not_noop :
    caseStudies.lookup "unknown-project" = none ∧
    (openCaseStudy "unknown-project" initialModalState).isModalOpen = true ∧
    (openCaseStudy "unknown-project" initialModalState).currentProject = some "unknown-project" ∧
    (openCaseStudy "unknown-project" initialModalState).bodyOverflowHidden = true ∧
    (openCaseStudy "unknown-project" initialModalState).modalContent = "" := by
  decide

/-- C1, amended: for every project id not in the fixed table,
`openCaseStudy` opens the modal (sets `isModalOpen`, records the id in
`currentProject`, applies the active styling, locks page scroll) but
leaves the rendered modal content unchanged. -/
theorem openCaseStudy_unknown_id (projectId : String) (s : ModalState)
    (h : caseStudies.lookup projectId = none) :
    openCaseStudy projectId s =
      { isModalOpen := true, currentProject := some projectId, modalActive := true,
        bodyOverflowHidden := true, modalContent := s.modalContent } := by
  unfold openCaseStudy loadCaseStudyContent
  rw [h]

/-- Witness for the amended C1 at the id `"unknown-project"`. -/
theorem openCaseStudy_unknown_id_witness :
    caseStudies.lookup "unknown-project" = none ∧
    openCaseStudy "unknown-project" initialModalState =
      { isModalOpen := true, currentProject := some "unknown-project", modalActive := true,
        bodyOverflowHidden := true, modalContent := "" } :=
  ⟨by decide, openCaseStudy_unknown_id "unknown-project" initialModalState (by decide)⟩

/-- Invoked instants are a sublist of the call instants: dropped calls
are dropped, never queued or fired later. -/
theorem throttleRun_sublist (limit : Nat) :
    ∀ (ts : List Nat) (st : Option Nat), (throttleRun limit ts st).Sublist ts := by
  intro ts
  induction ts with
  | nil => intro st; cases st <;> simp [throttleRun]
  | cons t ts ih =>
      intro st
      cases st with
      | none =>
          simp only [throttleRun]
          exact List.Sublist.cons₂ t (ih _)
      | some e =>
          by_cases h : e ≤ t
          · simp only [throttleRun, if_pos h]
            exact List.Sublist.cons₂ t (ih _)
          · simp only [throttleRun, if_neg h]
            exact List.Sublist.cons t (ih _)

/-- Every invocation inside an open window happens no earlier than the
window expiry. -/
theorem throttleRun_ge (limit : Nat) :
    ∀ (ts : List Nat) (e x : Nat), x ∈ throttleRun limit ts (some e) → e ≤ x := by
  intro ts
  induction ts with
  | nil => intro e x hx; simp [throttleRun] at hx
  | cons t ts ih =>
      intro e x hx
      by_cases h : e ≤ t
      · simp only [throttleRun, if_pos h] at hx
        rcases List.mem_cons.mp hx with rfl | hx'
        · exact h
        · exact le_trans (le_trans h (Nat.le_add_right t limit)) (ih _ _ hx')
      · simp only [throttleRun, if_neg h] at hx
        exact ih _ _ hx

/-- Consecutive invocations are separated by at least the interval. -/
theorem throttleRun_chain (limit : Nat) :
    ∀ (ts : List Nat) (st : Option Nat),
      List.Chain' (fun a b => a + limit ≤ b) (throttleRun limit ts st) := by
  intro ts
  induction ts with
  | nil => intro st; cases st <;> simp [throttleRun]
  | cons t ts ih =>
      intro st
      have hcons : List.Chain' (fun a b => a + limit ≤ b)
          (t :: throttleRun limit ts (some (t + limit))) := by
        rw [List.chain'_cons']
        exact ⟨fun y hy => throttleRun_ge limit ts (t + limit) y (List.mem_of_mem_head? hy),
               ih _⟩
      cases st with
      | none => simpa only [throttleRun] using hcons
      | some e =>
          by_cases h : e ≤ t
          · simp only [throttleRun, if_pos h]
            exact hcons
          · simp only [throttleRun, if_neg h]
            exact ih _

/-- C7: the throttled wrapper only ever invokes at call instants (drops,
never queues), invokes immediately on the first call, keeps consecutive
invocations at least the interval apart (the window restarting at each
invocation); with interval 100, five calls within 50 ms produce exactly
one immediate invocation, and a sixth call at 150 ms is let through. -/
theorem throttle_spec (limit : Nat) (ts : List Nat) :
    (throttleRun limit ts none).Sublist ts ∧
    (throttleRun limit ts none).head? = ts.head? ∧
    List.Chain' (fun a b => a + limit ≤ b) (throttleRun limit ts none) ∧
    throttleRun 100 [0, 10, 20, 30, 40] none = [0] ∧
    throttleRun 100 [0, 10, 20, 30, 40, 150] none = [0, 150] := by
  refine ⟨throttleRun_sublist limit ts none, ?_, throttleRun_chain limit ts none,
          by decide, by decide⟩
  cases ts <;> simp [throttleRun]

/-- The overwrite-fold of `updateActiveNavigation` computes the id of
the last matching section, i.e. of the first match in the reversed
list, defaulting to the accumulator. -/
theorem foldlCurrent_eq_find? (p : PageSection → Bool) :
    ∀ (l : List PageSection) (acc : String),
      l.foldl (fun cur sec => if p sec then sec.id else cur) acc =
        ((l.reverse.find? p).map PageSection.id).getD acc := by
  intro l
  induction l using List.reverseRecOn with
  | nil => intro acc; simp
  | append_singleton l sec ih =>
      intro acc
      rw [List.foldl_append, List.reverse_append]
      by_cases h : p sec
      · simp [h, List.find?_cons_of_pos]
      · simp [h, List.find?_cons_of_neg, ih]

/-- C8: provided no nav link carries an empty `data-section` attribute,
`updateActiveNavigation` marks as active exactly the links of the last
section (in document order) whose interval
`[sectionTop - 100, sectionTop - 100 + sectionHeight)` contains the
scroll offset, clearing all others; when no section matches, no link is
marked active. -/
theorem updateActiveNavigation_spec (scrollY : Int) (sections : List PageSection)
    (links : List (Option String)) (h : ∀ a ∈ links, a ≠ some "") :
    (∀ sec : PageSection,
        sections.reverse.find? (sectionMatches scrollY) = some sec →
        updateActiveNavigation scrollY sections links =
          links.map (fun attr => attr == some sec.id)) ∧
    (sections.reverse.find? (sectionMatches scrollY) = none →
        ∀ b ∈ updateActiveNavigation scrollY sections links, b = false) := by
  have hcc : computeCurrent scrollY sections =
      ((sections.reverse.find? (sectionMatches scrollY)).map PageSection.id).getD "" :=
    foldlCurrent_eq_find? (sectionMatches scrollY) sections ""
  constructor
  · intro sec hfind
    unfold updateActiveNavigation
    rw [hcc, hfind]
    simp
  · intro hfind b hb
    unfold updateActiveNavigation at hb
    rw [hcc, hfind] at hb
    obtain ⟨a, ha, rfl⟩ := List.mem_map.mp hb
    exact beq_eq_false_iff_ne.mpr (h a ha)

/-- Witness for C8 on a two-section page at scroll offset 0. -/
theorem updateActiveNavigation_spec_witness :
    (∀ a ∈ [some "home", some "about", (none : Option String)], a ≠ some "") ∧
    updateActiveNavigation 0 [⟨"home", 0, 600⟩, ⟨"about", 600, 400⟩]
        [some "home", some "about", none] = [true, false, false] := by
  refine ⟨by decide, ?_⟩
  have h := (updateActiveNavigation_spec 0 [⟨"home", 0, 600⟩, ⟨"about", 600, 400⟩]
      [some "home", some "about", none] (by decide)).1 ⟨"home", 0, 600⟩ (by decide)
  rw [h]
  decide

/-- C10: over exact rationals and for positive duration, the quadratic
ease-in-out starts exactly at the start position and ends exactly at
start plus distance. -/
theorem easeInOutQuad_endpoints (b c d : ℚ) (h : 0 < d) :
    easeInOutQuad 0 b c d = b ∧ easeInOutQuad d b c d = b + c := by
  have hd : d ≠ 0 := ne_of_gt h
  have h2 : d / (d / 2) = 2 := by
    rw [div_div_eq_mul_div, mul_comm, mul_div_assoc, div_self hd, mul_one]
  constructor
  · unfold easeInOutQuad
    rw [zero_div, if_pos (by norm_num : (0 : ℚ) < 1)]
    ring
  · unfold easeInOutQuad
    rw [h2, if_neg (by norm_num : ¬(2 : ℚ) < 1)]
    ring

/-- Witness for C10 at start 0, distance 1, duration 2. -/
theorem easeInOutQuad_endpoints_witness :
    (0 : ℚ) < 2 ∧ (easeInOutQuad 0 0 1 2 = 0 ∧ easeInOutQuad 2 0 1 2 = 0 + 1) :=
  ⟨by norm_num, easeInOutQuad_endpoints 0 1 2 (by norm_num)⟩

end Portfolio
